import Mathlib

/-!
Verification of the data-extraction service in `src/main.py`.

The service fans one "site pipeline" out per configured site (token
acquisition followed by a GraphQL query, each wrapped in the same bounded
retry/backoff loop) and merges the per-site results into one aggregate.
The embedding below supplies the network as an oracle: for each pipeline
step, a function from the 1-based attempt number to the response observed
by that attempt.  Everything that influences a returned value is modelled;
request payloads and logging, which do not, are omitted.
-/

namespace Extraction

/-- `SiteConfig` (src/main.py lines 17-22). -/
structure SiteConfig where
  name : String
  client_id : String
  key : String
  propertyId : String
  categoryId : String
  deriving DecidableEq

/-- One authentication-endpoint response as seen by one attempt of
`get_site_token` (lines 65-87): a transport exception, or an HTTP response
with a status and - read from the parsed JSON body when the status is
200 - the nested `result.authToken` field (`none` when the `result`
object or the field is absent) and the top-level `token` field. -/
inductive TokenResp where
  | exn : TokenResp
  | resp (status : Nat) (authToken : Option String) (token : Option String) : TokenResp
  deriving DecidableEq

/-- Python truthiness filter for an optional string: `None` and `""` are
falsy and yield `none`. -/
def truthyStr : Option String → Option String
  | none => none
  | some s => if s = "" then none else some s

/-- The body of one attempt of `get_site_token` (lines 61-90): on HTTP 200
the token is `result.authToken` when truthy (lines 75-76), else the
top-level `token` when truthy (lines 77-78); a non-200 status, a transport
exception, or a 200 body without a truthy token is a retryable failure,
modelled as `none` (the loop then continues, lines 83-95). -/
def tokenAttempt : TokenResp → Option String
  | .exn => none
  | .resp status authToken token =>
      if status = 200 then
        match truthyStr authToken with
        | some t => some t
        | none => truthyStr token
      else none

/-- `self.max_retries` (line 36). -/
def max_retries : Nat := 10

/-- The retry/backoff loop shared verbatim by `get_site_token`
(lines 60-95) and `query_site_data` (lines 152-189): run `step` at attempt
numbers `attempt, attempt + 1, ...` while `remaining` attempts are left.
A `some` result returns immediately; after a failed attempt that is not
the last one the loop sleeps `min (2 ^ attempt) 30` (lines 92-95 and
186-189).  Returns the result, the number of attempts performed, and the
list of sleeps performed between attempts. -/
def retryAux {α : Type} (step : Nat → Option α) : Nat → Nat → Option α × Nat × List Nat
  | _, 0 => (none, 0, [])
  | attempt, remaining + 1 =>
      match step attempt with
      | some a => (some a, 1, [])
      | none =>
          if remaining = 0 then (none, 1, [])
          else
            let r := retryAux step (attempt + 1) remaining
            (r.1, r.2.1 + 1, min (2 ^ attempt) 30 :: r.2.2)

/-- `for attempt in range(1, self.max_retries + 1)` (lines 60 and 152):
the full loop, attempts numbered from 1. -/
def retryRun {α : Type} (step : Nat → Option α) : Option α × Nat × List Nat :=
  retryAux step 1 max_retries

/-- `get_site_token` (lines 49-98), the per-attempt authentication
responses supplied by `responses`.  Yields the token (`none` after all
attempts failed, line 98), the number of attempts performed, and the
backoff sleeps. -/
def get_site_token (responses : Nat → TokenResp) : Option String × Nat × List Nat :=
  retryRun (fun attempt => tokenAttempt (responses attempt))

/-- One entry of a member's `member_notes` list (lines 131-135). -/
structure NoteRec where
  id : String
  created_at : String
  description : String
  deriving DecidableEq

/-- One entry of the query payload's `member` list (lines 119-136). -/
structure MemberRec where
  id : String
  username : String
  name : String
  email : String
  created_at : String
  member_notes : List NoteRec
  deriving DecidableEq

/-- The `data` object of a 200 query response (lines 107-137):
`member_aggregate = some c` when the aggregate object is present and
truthy, with `c` its `aggregate.count` (lines 259-260); `member` is the
member list (absent and empty are observationally identical, both in the
truthiness test at line 267 and in iteration). -/
structure QueryData where
  member_aggregate : Option Nat
  member : List MemberRec
  deriving DecidableEq

/-- The `site_info` annotation attached to a successful query result
(lines 172-177). -/
structure SiteInfo where
  name : String
  client_id : String
  propertyId : String
  categoryId : String
  deriving DecidableEq

/-- Lines 172-177: the site identity recorded on a successful result. -/
def siteInfoOf (site : SiteConfig) : SiteInfo :=
  ⟨site.name, site.client_id, site.propertyId, site.categoryId⟩

/-- One query-endpoint response as seen by one attempt of
`query_site_data` (lines 157-184): a transport exception, or an HTTP
response with a status and - when the status is 200 - the parsed body's
top-level `errors` list (absent modelled as `[]`, matching the truthiness
test at line 166) and optional `data` object. -/
inductive QueryResp where
  | exn : QueryResp
  | resp (status : Nat) (errors : List String) (data : Option QueryData) : QueryResp
  deriving DecidableEq

/-- The result dictionaries a site pipeline can produce:
`noToken` is `{"error": "無法獲取token", "site": name}` (line 201),
`gqlError` is `{"error": "GraphQL錯誤", "site": name, "details": errors}`
(line 168), `queryFailed` is `{"error": "查詢失敗", "site": name}`
(line 192), and `success` is the 200 body with its `data` payload and the
attached `site_info` (lines 170-178). -/
inductive SiteResult where
  | noToken (site : String) : SiteResult
  | gqlError (site : String) (details : List String) : SiteResult
  | queryFailed (site : String) : SiteResult
  | success (data : QueryData) (site_info : SiteInfo) : SiteResult
  deriving DecidableEq

/-- The body of one attempt of `query_site_data` (lines 152-184): on HTTP
200 a truthy `errors` list returns the GraphQL-error dictionary
immediately (lines 166-168); otherwise a present `data` key returns the
annotated success (lines 170-178); a non-200 status, a transport
exception, or a 200 body with neither is a retryable failure (`none`). -/
def queryAttempt (site : SiteConfig) : QueryResp → Option SiteResult
  | .exn => none
  | .resp status errors data =>
      if status = 200 then
        if errors ≠ [] then some (.gqlError site.name errors)
        else
          match data with
          | some d => some (.success d (siteInfoOf site))
          | none => none
      else none

/-- `query_site_data` (lines 100-192), the per-attempt query responses
supplied by `responses`.  When every attempt fails the generic
query-failed dictionary is returned (line 192). -/
def query_site_data (site : SiteConfig) (responses : Nat → QueryResp) :
    SiteResult × Nat × List Nat :=
  match retryRun (fun attempt => queryAttempt site (responses attempt)) with
  | (some r, n, ws) => (r, n, ws)
  | (none, n, ws) => (.queryFailed site.name, n, ws)

/-- `process_single_site` (lines 194-205): acquire a token; a falsy token
(`None`, and for completeness `""`, which `get_site_token` never returns)
short-circuits to the no-token dictionary (lines 200-201); otherwise the
query step runs (line 204).  The second component is the number of query
attempts performed (`0` when the query step is never reached). -/
def process_single_site (site : SiteConfig) (tokenResponses : Nat → TokenResp)
    (queryResponses : Nat → QueryResp) : SiteResult × Nat :=
  match (get_site_token tokenResponses).1 with
  | none => (.noToken site.name, 0)
  | some token =>
      if token = "" then (.noToken site.name, 0)
      else
        let q := query_site_data site queryResponses
        (q.1, q.2.1)

/-- One element of the list returned by
`asyncio.gather(*tasks, return_exceptions=True)` (line 226): the task's
returned dictionary, or the exception it raised (kept as a value). -/
inductive GatherItem where
  | exception (message : String) : GatherItem
  | ok (result : SiteResult) : GatherItem
  deriving DecidableEq

/-- The behaviour of one site's pipeline task: it either runs to
completion against the given per-attempt network responses, or raises an
unexpected exception with the given message. -/
inductive SiteBehavior where
  | raises (message : String) : SiteBehavior
  | responds (tokenResponses : Nat → TokenResp) (queryResponses : Nat → QueryResp) : SiteBehavior

/-- Runs one site's task (line 217) and captures its outcome or exception
as `asyncio.gather(..., return_exceptions=True)` does. -/
def runPipeline (site : SiteConfig) : SiteBehavior → GatherItem
  | .raises msg => .exception msg
  | .responds tr qr => .ok (process_single_site site tr qr).1

/-- Line 226: the fan-out collects, in input order, one item per task. -/
def gatherResults (tasks : List (SiteConfig × SiteBehavior)) : List GatherItem :=
  tasks.map fun t => runPipeline t.1 t.2

/-- A member summary appended to `members_info` (lines 270-279). -/
structure MemberInfo where
  member_id : String
  username : String
  name : String
  email : String
  member_created_at : String
  site : String
  site_client_id : String
  notes_count : Nat
  deriving DecidableEq

/-- A note record appended to `merged_notes` (lines 286-295). -/
structure NoteWithMember where
  note_id : String
  created_at : String
  description : String
  member_id : String
  member_username : String
  member_name : String
  member_email : String
  site : String
  deriving DecidableEq

/-- A per-site summary appended to `sites_data` (lines 299-305). -/
structure SiteSummary where
  site_info : SiteInfo
  member_count : Nat
  notes_count : Nat
  notes : List NoteWithMember
  members : List MemberInfo
  deriving DecidableEq

/-- An element of the aggregate's `errors` list: either
`{"error": "Exception", "message": msg}` appended for a task that raised
(line 243) - note this dictionary has no `"site"` key - or an error result
dictionary appended verbatim (line 249). -/
inductive ErrorEntry where
  | exceptionEntry (message : String) : ErrorEntry
  | resultEntry (result : SiteResult) : ErrorEntry
  deriving DecidableEq

/-- The value of the `"site"` key of an error entry, `none` when the
dictionary has no such key. -/
def ErrorEntry.siteField : ErrorEntry → Option String
  | .exceptionEntry _ => none
  | .resultEntry (.noToken s) => some s
  | .resultEntry (.gqlError s _) => some s
  | .resultEntry (.queryFailed s) => some s
  | .resultEntry (.success _ _) => none

/-- The `merged_data` accumulator (lines 229-238). -/
structure MergedData where
  success_count : Nat
  error_count : Nat
  total_member_count : Nat
  total_notes_count : Nat
  sites_data : List SiteSummary
  errors : List ErrorEntry
  merged_notes : List NoteWithMember
  members_info : List MemberInfo
  deriving DecidableEq

/-- The initial `merged_data` value (lines 229-238). -/
def initMerged : MergedData := ⟨0, 0, 0, 0, [], [], [], []⟩

/-- The member summary built at lines 270-279. -/
def memberInfoOf (si : SiteInfo) (m : MemberRec) : MemberInfo :=
  ⟨m.id, m.username, m.name, m.email, m.created_at, si.name, si.client_id,
    m.member_notes.length⟩

/-- The note record built at lines 286-295. -/
def noteWithMemberOf (si : SiteInfo) (m : MemberRec) (n : NoteRec) : NoteWithMember :=
  ⟨n.id, n.created_at, n.description, m.id, m.username, m.name, m.email, si.name⟩

/-- `site_members` as accumulated by the loop at lines 267-280. -/
def siteMembersOf (si : SiteInfo) (ms : List MemberRec) : List MemberInfo :=
  ms.map (memberInfoOf si)

/-- `site_notes` as accumulated by the loop at lines 267-297: each
member's notes in member order. -/
def siteNotesOf (si : SiteInfo) (ms : List MemberRec) : List NoteWithMember :=
  ms.flatMap fun m => m.member_notes.map (noteWithMemberOf si m)

/-- `member_count` for one successful site (lines 258-261): the aggregate
count when the aggregate object is present, else 0. -/
def memberCountOf (d : QueryData) : Nat :=
  match d.member_aggregate with
  | some c => c
  | none => 0

/-- One iteration of the merge loop (lines 240-307).  A raised exception
(lines 241-245) and an error dictionary (lines 247-251) each append one
entry to `errors`; a success (lines 253-305) appends its flattened members
and notes and one `sites_data` summary.  The source tests `"error"` before
`"data"`; the two never co-occur in a pipeline result, so matching the
success constructor directly is equivalent. -/
def mergeStep (acc : MergedData) : GatherItem → MergedData
  | .exception msg =>
      { acc with
          error_count := acc.error_count + 1,
          errors := acc.errors ++ [.exceptionEntry msg] }
  | .ok (.success d si) =>
      let site_members := siteMembersOf si d.member
      let site_notes := siteNotesOf si d.member
      { acc with
          success_count := acc.success_count + 1,
          total_member_count := acc.total_member_count + memberCountOf d,
          members_info := acc.members_info ++ site_members,
          merged_notes := acc.merged_notes ++ site_notes,
          sites_data := acc.sites_data ++
            [⟨si, memberCountOf d, site_notes.length, site_notes, site_members⟩] }
  | .ok r =>
      { acc with
          error_count := acc.error_count + 1,
          errors := acc.errors ++ [.resultEntry r] }

/-- The merge loop over all collected results (lines 240-307). -/
def mergeAll (items : List GatherItem) : MergedData :=
  items.foldl mergeStep initMerged

/-- `merged_notes` in encounter order, i.e. before the final sort: the
notes of the successful results flattened in collection order. -/
def preSortNotes (items : List GatherItem) : List NoteWithMember :=
  (mergeAll items).merged_notes

/-- The order used by the stable sort at line 312
(`sort(key=created_at, reverse=True)`): `a` may precede `b` iff
`b.created_at ≤ a.created_at`, comparing strings lexicographically. -/
def noteLE (a b : NoteWithMember) : Bool :=
  decide (b.created_at ≤ a.created_at)

/-- The order used by the stable sort at line 315
(`sort(key=(site, member_id))`): ascending lexicographic comparison of
the pair, matching Python tuple comparison. -/
def memberLE (a b : MemberInfo) : Bool :=
  decide (a.site < b.site ∨ (a.site = b.site ∧ a.member_id ≤ b.member_id))

/-- Lines 309-315 of `extract_all_sites_data`: after the merge loop, set
`total_notes_count` to the length of `merged_notes` (line 309), then sort
`merged_notes` by `created_at` descending (line 312) and `members_info` by
`(site, member_id)` ascending (line 315).  Python `list.sort` is a stable
sort, and a stable sort's output is uniquely determined by the key order,
so the stable `List.mergeSort` is extensionally the same function. -/
def mergeResults (items : List GatherItem) : MergedData :=
  let m := mergeAll items
  let m1 := { m with total_notes_count := m.merged_notes.length }
  { m1 with
      merged_notes := m1.merged_notes.mergeSort noteLE,
      members_info := m1.members_info.mergeSort memberLE }

/-- `extract_all_sites_data` (lines 207-323): fan out one pipeline per
site (lines 215-226), then merge every collected outcome (lines 229-320). -/
def extract_all_sites_data (tasks : List (SiteConfig × SiteBehavior)) : MergedData :=
  mergeResults (gatherResults tasks)

/-- Componentwise combination of two accumulator values: counters add,
lists concatenate. -/
def addMerged (x y : MergedData) : MergedData :=
  ⟨x.success_count + y.success_count, x.error_count + y.error_count,
    x.total_member_count + y.total_member_count,
    x.total_notes_count + y.total_notes_count,
    x.sites_data ++ y.sites_data, x.errors ++ y.errors,
    x.merged_notes ++ y.merged_notes, x.members_info ++ y.members_info⟩

/-- A fixed sample site configuration used for concrete runs. -/
def siteA : SiteConfig := ⟨"A", "cid", "sk", "pid", "catid"⟩

/-! ## Properties of the retry/backoff loop -/

theorem retryAux_succ_some {α : Type} {step : Nat → Option α} {attempt m : Nat} {v : α}
    (h : step attempt = some v) :
    retryAux step attempt (m + 1) = (some v, 1, []) := by
  simp [retryAux, h]

theorem retryAux_succ_last {α : Type} {step : Nat → Option α} {attempt : Nat}
    (h : step attempt = none) :
    retryAux step attempt 1 = (none, 1, []) := by
  simp [retryAux, h]

theorem retryAux_succ_cont {α : Type} {step : Nat → Option α} {attempt m : Nat}
    (h : step attempt = none) (hm : m ≠ 0) :
    retryAux step attempt (m + 1) =
      ((retryAux step (attempt + 1) m).1, (retryAux step (attempt + 1) m).2.1 + 1,
        min (2 ^ attempt) 30 :: (retryAux step (attempt + 1) m).2.2) := by
  simp [retryAux, h, hm]

theorem retryAux_attempts_le {α : Type} (step : Nat → Option α) :
    ∀ (n attempt : Nat), (retryAux step attempt n).2.1 ≤ n := by
  intro n
  induction n with
  | zero => intro attempt; simp [retryAux]
  | succ m ih =>
      intro attempt
      have hm := ih (attempt + 1)
      cases h : step attempt with
      | some a =>
          rw [retryAux_succ_some h]
          show 1 ≤ m + 1
          omega
      | none =>
          by_cases h0 : m = 0
          · subst h0; rw [retryAux_succ_last h]
          · rw [retryAux_succ_cont h h0]
            show (retryAux step (attempt + 1) m).2.1 + 1 ≤ m + 1
            omega

theorem retryAux_succeeds {α : Type} (step : Nat → Option α) {v : α} :
    ∀ (k attempt n : Nat), k < n →
      (∀ j, attempt ≤ j → j < attempt + k → step j = none) →
      step (attempt + k) = some v →
      retryAux step attempt n =
        (some v, k + 1, (List.range' attempt k).map fun a => min (2 ^ a) 30) := by
  intro k
  induction k with
  | zero =>
      intro attempt n hn hprev hs
      obtain ⟨m, rfl⟩ : ∃ m, n = m + 1 := ⟨n - 1, by omega⟩
      simp only [Nat.add_zero] at hs
      rw [retryAux_succ_some hs]
      simp [List.range']
  | succ k ih =>
      intro attempt n hn hprev hs
      obtain ⟨m, rfl⟩ : ∃ m, n = m + 1 := ⟨n - 1, by omega⟩
      have h0 : step attempt = none := hprev attempt le_rfl (by omega)
      have hm : m ≠ 0 := by omega
      have hrec := ih (attempt + 1) m (by omega)
        (fun j h1 h2 => hprev j (by omega) (by omega))
        (by rw [show attempt + 1 + k = attempt + (k + 1) by omega]; exact hs)
      rw [retryAux_succ_cont h0 hm, hrec]
      simp [List.range']

theorem retryAux_fails {α : Type} (step : Nat → Option α) :
    ∀ (n attempt : Nat), 1 ≤ n →
      (∀ j, attempt ≤ j → j < attempt + n → step j = none) →
      retryAux step attempt n =
        (none, n, (List.range' attempt (n - 1)).map fun a => min (2 ^ a) 30) := by
  intro n
  induction n with
  | zero => intro attempt h; omega
  | succ m ih =>
      intro attempt _ hall
      have h0 : step attempt = none := hall attempt le_rfl (by omega)
      by_cases hm : m = 0
      · subst hm
        rw [retryAux_succ_last h0]
        simp [List.range']
      · obtain ⟨m1, rfl⟩ : ∃ m1, m = m1 + 1 := ⟨m - 1, by omega⟩
        have hrec := ih (attempt + 1) (by omega)
          (fun j h1 h2 => hall j (by omega) (by omega))
        rw [retryAux_succ_cont h0 hm, hrec]
        simp [List.range']

theorem retryAux_some {α : Type} (step : Nat → Option α) :
    ∀ (n attempt : Nat) {t : α}, (retryAux step attempt n).1 = some t →
      ∃ j, step j = some t := by
  intro n
  induction n with
  | zero => intro attempt t h; simp [retryAux] at h
  | succ m ih =>
      intro attempt t h
      cases hs : step attempt with
      | some a =>
          rw [retryAux_succ_some hs] at h
          simp only [Option.some.injEq] at h
          exact ⟨attempt, by rw [hs, h]⟩
      | none =>
          by_cases hm : m = 0
          · subst hm; rw [retryAux_succ_last hs] at h; simp at h
          · rw [retryAux_succ_cont hs hm] at h
            exact ih (attempt + 1) h

theorem retryRun_attempts_le {α : Type} (step : Nat → Option α) :
    (retryRun step).2.1 ≤ max_retries :=
  retryAux_attempts_le step max_retries 1

theorem retryRun_succeeds {α : Type} (step : Nat → Option α) {v : α} (k : Nat)
    (hk1 : 1 ≤ k) (hk : k ≤ max_retries)
    (hprev : ∀ j, 1 ≤ j → j < k → step j = none) (hs : step k = some v) :
    retryRun step = (some v, k, (List.range' 1 (k - 1)).map fun a => min (2 ^ a) 30) := by
  have hmr : max_retries = 10 := rfl
  have h := retryAux_succeeds step (k - 1) 1 max_retries (by omega)
    (fun j h1 h2 => hprev j h1 (by omega))
    (by rw [show 1 + (k - 1) = k by omega]; exact hs)
  rw [retryRun, h, show k - 1 + 1 = k by omega]

theorem retryRun_fails {α : Type} (step : Nat → Option α)
    (hall : ∀ j, 1 ≤ j → j ≤ max_retries → step j = none) :
    retryRun step =
      (none, max_retries, (List.range' 1 (max_retries - 1)).map fun a => min (2 ^ a) 30) := by
  have hmr : max_retries = 10 := rfl
  exact retryAux_fails step max_retries 1 (by omega)
    (fun j h1 h2 => hall j h1 (by omega))

theorem query_site_data_attempts (site : SiteConfig) (responses : Nat → QueryResp) :
    (query_site_data site responses).2.1 =
      (retryRun fun attempt => queryAttempt site (responses attempt)).2.1 := by
  unfold query_site_data
  rcases h : retryRun fun attempt => queryAttempt site (responses attempt) with ⟨r, n, ws⟩
  cases r <;> simp

/-! ## Decomposition of the merge loop -/

theorem mergeStep_add (acc : MergedData) (i : GatherItem) :
    mergeStep acc i = addMerged acc (mergeStep initMerged i) := by
  cases i with
  | exception msg => simp [mergeStep, addMerged, initMerged]
  | ok r => cases r <;> simp [mergeStep, addMerged, initMerged]

theorem addMerged_assoc (x y z : MergedData) :
    addMerged (addMerged x y) z = addMerged x (addMerged y z) := by
  simp [addMerged, Nat.add_assoc, List.append_assoc]

theorem addMerged_init_right (x : MergedData) : addMerged x initMerged = x := by
  simp [addMerged, initMerged]

theorem foldl_mergeStep (items : List GatherItem) :
    ∀ acc : MergedData, items.foldl mergeStep acc = addMerged acc (mergeAll items) := by
  induction items with
  | nil => intro acc; simp [mergeAll, addMerged_init_right]
  | cons i is ih =>
      intro acc
      have h2 : mergeAll (i :: is) = addMerged (mergeStep initMerged i) (mergeAll is) := by
        rw [mergeAll, List.foldl_cons]
        exact ih (mergeStep initMerged i)
      rw [List.foldl_cons, ih (mergeStep acc i), mergeStep_add acc i, h2, addMerged_assoc]

theorem mergeAll_cons (i : GatherItem) (is : List GatherItem) :
    mergeAll (i :: is) = addMerged (mergeStep initMerged i) (mergeAll is) := by
  rw [mergeAll, List.foldl_cons]
  exact foldl_mergeStep is (mergeStep initMerged i)

theorem mergeAll_append (xs ys : List GatherItem) :
    mergeAll (xs ++ ys) = addMerged (mergeAll xs) (mergeAll ys) := by
  rw [mergeAll, List.foldl_append, ← mergeAll, foldl_mergeStep]

theorem mergeResults_success_count (items : List GatherItem) :
    (mergeResults items).success_count = (mergeAll items).success_count := rfl

theorem mergeResults_error_count (items : List GatherItem) :
    (mergeResults items).error_count = (mergeAll items).error_count := rfl

theorem mergeResults_total_member_count (items : List GatherItem) :
    (mergeResults items).total_member_count = (mergeAll items).total_member_count := rfl

theorem mergeResults_total_notes_count (items : List GatherItem) :
    (mergeResults items).total_notes_count = (mergeAll items).merged_notes.length := rfl

theorem mergeResults_sites_data (items : List GatherItem) :
    (mergeResults items).sites_data = (mergeAll items).sites_data := rfl

theorem mergeResults_errors (items : List GatherItem) :
    (mergeResults items).errors = (mergeAll items).errors := rfl

theorem mergeResults_merged_notes (items : List GatherItem) :
    (mergeResults items).merged_notes = (mergeAll items).merged_notes.mergeSort noteLE := rfl

theorem mergeResults_members_info (items : List GatherItem) :
    (mergeResults items).members_info = (mergeAll items).members_info.mergeSort memberLE := rfl

theorem delta_lengths (i : GatherItem) :
    (mergeStep initMerged i).sites_data.length
      + (mergeStep initMerged i).errors.length = 1 := by
  cases i with
  | exception msg => simp [mergeStep, initMerged]
  | ok r => cases r <;> simp [mergeStep, initMerged]

theorem mergeAll_lengths (items : List GatherItem) :
    (mergeAll items).sites_data.length + (mergeAll items).errors.length = items.length := by
  induction items with
  | nil => simp [mergeAll, initMerged]
  | cons i is ih =>
      rw [mergeAll_cons]
      have hd := delta_lengths i
      simp only [addMerged, List.length_append, List.length_cons]
      omega

theorem delta_member_count (i : GatherItem) :
    (mergeStep initMerged i).total_member_count =
      ((mergeStep initMerged i).sites_data.map SiteSummary.member_count).sum := by
  cases i with
  | exception msg => simp [mergeStep, initMerged]
  | ok r => cases r <;> simp [mergeStep, initMerged]

theorem delta_notes_length (i : GatherItem) :
    (mergeStep initMerged i).merged_notes.length =
      ((mergeStep initMerged i).sites_data.map SiteSummary.notes_count).sum := by
  cases i with
  | exception msg => simp [mergeStep, initMerged]
  | ok r => cases r <;> simp [mergeStep, initMerged]

theorem mergeAll_member_count (items : List GatherItem) :
    (mergeAll items).total_member_count =
      ((mergeAll items).sites_data.map SiteSummary.member_count).sum := by
  induction items with
  | nil => simp [mergeAll, initMerged]
  | cons i is ih =>
      rw [mergeAll_cons]
      have hd := delta_member_count i
      simp only [addMerged, List.map_append, List.sum_append]
      omega

theorem mergeAll_notes_length (items : List GatherItem) :
    (mergeAll items).merged_notes.length =
      ((mergeAll items).sites_data.map SiteSummary.notes_count).sum := by
  induction items with
  | nil => simp [mergeAll, initMerged]
  | cons i is ih =>
      rw [mergeAll_cons]
      have hd := delta_notes_length i
      simp only [addMerged, List.map_append, List.sum_append, List.length_append]
      omega

theorem truthyStr_some {o : Option String} {t : String} (h : truthyStr o = some t) :
    t ≠ "" := by
  cases o with
  | none => simp [truthyStr] at h
  | some s =>
      simp only [truthyStr] at h
      by_cases hs : s = ""
      · simp [hs] at h
      · simp only [hs, if_false, Option.some.injEq] at h
        exact h ▸ hs

theorem tokenAttempt_some_ne_empty {r : TokenResp} {t : String}
    (h : tokenAttempt r = some t) : t ≠ "" := by
  cases r with
  | exn => simp [tokenAttempt] at h
  | resp status a b =>
      simp only [tokenAttempt] at h
      by_cases h200 : status = 200
      · simp only [h200, if_true] at h
        cases ha : truthyStr a with
        | some s =>
            rw [ha] at h
            simp only [Option.some.injEq] at h
            rw [← h]
            exact truthyStr_some ha
        | none =>
            rw [ha] at h
            exact truthyStr_some h
      · simp [h200] at h

/-! ## Claims -/

/-- C1: for every extraction request with N sites, the fan-out returns one
outcome per input site, and the aggregate classifies every outcome into
exactly one of the two lists: the number of per-site summaries
(`sites_data`) plus the number of error entries (`errors`) equals N. -/
theorem claim_sites_accounted (tasks : List (SiteConfig × SiteBehavior)) :
    (gatherResults tasks).length = tasks.length ∧
    (extract_all_sites_data tasks).sites_data.length
      + (extract_all_sites_data tasks).errors.length = tasks.length := by
  constructor
  · simp [gatherResults]
  · have h := mergeAll_lengths (gatherResults tasks)
    rw [extract_all_sites_data, mergeResults_sites_data, mergeResults_errors, h]
    simp [gatherResults]

/-- C2: if the query endpoint returns HTTP 200 with a non-empty top-level
`errors` list on attempt k (the earlier attempts having failed retryably),
`query_site_data` returns the failure dictionary carrying the site name
and the error details immediately on that attempt: exactly k attempts are
performed in total, so no retry follows the error, and k = 1 when it
happens on the first attempt. -/
theorem claim_gql_error_immediate (site : SiteConfig) (responses : Nat → QueryResp)
    (k : Nat) (errs : List String) (d : Option QueryData)
    (hk1 : 1 ≤ k) (hk : k ≤ max_retries)
    (hprev : ∀ j, 1 ≤ j → j < k → queryAttempt site (responses j) = none)
    (hresp : responses k = .resp 200 errs d) (hne : errs ≠ []) :
    query_site_data site responses =
      (.gqlError site.name errs, k, (List.range' 1 (k - 1)).map fun a => min (2 ^ a) 30) := by
  have hstep : queryAttempt site (responses k) = some (.gqlError site.name errs) := by
    rw [hresp]; simp [queryAttempt, hne]
  have hrun := retryRun_succeeds (fun attempt => queryAttempt site (responses attempt))
    k hk1 hk hprev hstep
  simp [query_site_data, hrun]

/-- Witness for C2 at a concrete input: a 200 response with a non-empty
error list on the first attempt yields the failure after exactly one call
and no backoff sleep. -/
theorem claim_gql_error_immediate_witness :
    query_site_data siteA (fun _ => .resp 200 ["boom"] none)
      = (.gqlError "A" ["boom"], 1, []) := by
  have h := claim_gql_error_immediate siteA (fun _ => .resp 200 ["boom"] none)
    1 ["boom"] none le_rfl (by decide)
    (fun j h1 h2 => absurd (Nat.lt_of_lt_of_le h2 h1) (Nat.lt_irrefl j))
    rfl (by simp)
  simpa [siteA] using h

/-- C3: the aggregate counters are consistent: `total_member_count` is the
sum of `member_count` over the successful sites' summaries (failures
contribute nothing), and `total_notes_count` equals the length of
`merged_notes`, which equals the sum of the per-site `notes_count` values
recorded in the successful sites' summaries. -/
theorem claim_counts_consistent (items : List GatherItem) :
    (mergeResults items).total_member_count
      = ((mergeResults items).sites_data.map SiteSummary.member_count).sum ∧
    (mergeResults items).total_notes_count = (mergeResults items).merged_notes.length ∧
    (mergeResults items).merged_notes.length
      = ((mergeResults items).sites_data.map SiteSummary.notes_count).sum := by
  refine ⟨?_, ?_, ?_⟩
  · rw [mergeResults_total_member_count, mergeResults_sites_data]
    exact mergeAll_member_count items
  · rw [mergeResults_total_notes_count, mergeResults_merged_notes,
      List.length_mergeSort]
  · rw [mergeResults_merged_notes, mergeResults_sites_data, List.length_mergeSort]
    exact mergeAll_notes_length items

theorem noteLE_trans (a b c : NoteWithMember) :
    noteLE a b → noteLE b c → noteLE a c := by
  simp only [noteLE, decide_eq_true_eq]
  intro h1 h2
  exact le_trans h2 h1

theorem noteLE_total (a b : NoteWithMember) : noteLE a b || noteLE b a := by
  simp only [noteLE, Bool.or_eq_true, decide_eq_true_eq]
  exact le_total b.created_at a.created_at

/-- C4: the final `merged_notes` is sorted by `created_at` descending, and
the sort is stable: for every timestamp `t`, the notes whose `created_at`
equals `t` appear in the same relative order as in the encounter-order
flattening of the successful outcomes (`preSortNotes`). -/
theorem claim_notes_sorted_stable (items : List GatherItem) :
    ((mergeResults items).merged_notes).Pairwise
      (fun a b => b.created_at ≤ a.created_at) ∧
    ∀ t : String,
      (mergeResults items).merged_notes.filter (fun n => decide (n.created_at = t))
        = (preSortNotes items).filter (fun n => decide (n.created_at = t)) := by
  constructor
  · have h := List.sorted_mergeSort noteLE_trans noteLE_total
      ((mergeAll items).merged_notes)
    rw [mergeResults_merged_notes]
    exact h.imp (by intro a b hb; simpa [noteLE, decide_eq_true_eq] using hb)
  · intro t
    rw [mergeResults_merged_notes, preSortNotes]
    have hpair : ((mergeAll items).merged_notes.filter
        (fun n => decide (n.created_at = t))).Pairwise (fun a b => noteLE a b = true) := by
      apply List.pairwise_of_forall_mem_list
      intro a ha b hb
      have ha2 := (List.mem_filter.mp ha).2
      have hb2 := (List.mem_filter.mp hb).2
      simp only [decide_eq_true_eq] at ha2 hb2
      simp [noteLE, ha2, hb2]
    have hsub := List.sublist_mergeSort noteLE_trans noteLE_total hpair
      (List.filter_sublist ((mergeAll items).merged_notes))
    have hfil := hsub.filter (fun n => decide (n.created_at = t))
    rw [List.filter_filter] at hfil
    simp only [Bool.and_self] at hfil
    have hperm := (List.mergeSort_perm ((mergeAll items).merged_notes) noteLE).filter
      (fun n => decide (n.created_at = t))
    exact (hfil.eq_of_length hperm.length_eq.symm).symm

/-- C5: for every operation wrapped by the retry loop (both token
acquisition and query execution are instances of `retryRun`), at most 10
attempts are performed; and when the first success happens at attempt k,
the loop returns that result immediately after exactly k attempts, with
sleeps `min (2 ^ a) 30` performed exactly for the completed attempts
a = 1 .. k-1 (between consecutive attempts, never after the final one). -/
theorem claim_retry_budget_and_backoff {α : Type} (step : Nat → Option α) :
    (retryRun step).2.1 ≤ max_retries ∧
    (∀ responses, (get_site_token responses).2.1 ≤ max_retries) ∧
    (∀ site responses, (query_site_data site responses).2.1 ≤ max_retries) ∧
    (∀ k (v : α), 1 ≤ k → k ≤ max_retries →
      (∀ j, 1 ≤ j → j < k → step j = none) → step k = some v →
      retryRun step =
        (some v, k, (List.range' 1 (k - 1)).map fun a => min (2 ^ a) 30)) ∧
    ((∀ j, 1 ≤ j → j ≤ max_retries → step j = none) →
      retryRun step =
        (none, max_retries, (List.range' 1 (max_retries - 1)).map fun a => min (2 ^ a) 30)) := by
  refine ⟨retryRun_attempts_le step, ?_, ?_, ?_, ?_⟩
  · intro responses
    exact retryRun_attempts_le _
  · intro site responses
    rw [query_site_data_attempts]
    exact retryRun_attempts_le _
  · intro k v hk1 hk hprev hs
    exact retryRun_succeeds step k hk1 hk hprev hs
  · intro hall
    exact retryRun_fails step hall

/-- Witness for C5 at concrete inputs: a step that first succeeds on
attempt 3 is run exactly 3 times, with sleeps after attempts 1 and 2
(min(2,30) = 2 and min(4,30) = 4) and none after the final attempt; a
step that never succeeds is run exactly 10 times with the capped
exponential sleeps after attempts 1 through 9. -/
theorem claim_retry_budget_and_backoff_witness :
    retryRun (fun j => if j = 3 then some 7 else none) = (some 7, 3, [2, 4]) ∧
    retryRun (fun _ : Nat => (none : Option Nat))
      = (none, 10, [2, 4, 8, 16, 30, 30, 30, 30, 30]) := by
  constructor
  · have h := (claim_retry_budget_and_backoff
        (fun j => if j = 3 then some 7 else none)).2.2.2.1
      3 7 (by omega) (by decide)
      (by intro j h1 h2; simp [show j ≠ 3 by omega]) (by simp)
    rw [h]
    decide
  · have h := (claim_retry_budget_and_backoff (fun _ : Nat => (none : Option Nat))).2.2.2.2
      (fun j h1 h2 => rfl)
    rw [h]
    decide

/-- C6: if token acquisition yields no token, `process_single_site`
returns the no-token failure carrying the site's name and performs zero
query attempts: the query executor is never invoked and its retry budget
is untouched. -/
theorem claim_no_token_short_circuit (site : SiteConfig)
    (tokenResponses : Nat → TokenResp) (queryResponses : Nat → QueryResp)
    (h : (get_site_token tokenResponses).1 = none) :
    process_single_site site tokenResponses queryResponses = (.noToken site.name, 0) := by
  simp [process_single_site, h]

/-- Witness for C6 at a concrete input: with every authentication attempt
raising, the pipeline returns the no-token failure and no query call. -/
theorem claim_no_token_short_circuit_witness :
    process_single_site siteA (fun _ => .exn) (fun _ => .exn) = (.noToken "A", 0) := by
  have h := claim_no_token_short_circuit siteA (fun _ => .exn) (fun _ => .exn) (by decide)
  simpa [siteA] using h

/-- Counterexample to C7 as stated: a run whose every attempt observed a
concrete upstream error (HTTP 500 with an error body) terminates with the
generic failure dictionary `{"error": "查詢失敗", "site": "A"}`, which
carries no error details - it is identical to the result of a run whose
attempts all raised transport exceptions, so the last observed error is
not carried.  Likewise `get_site_token` returns bare `None` after
exhaustion, carrying nothing. -/
theorem claim_last_error_counterexample :
    (query_site_data siteA (fun _ => .resp 500 ["internal server error"] none)).1
      = .queryFailed "A" ∧
    (query_site_data siteA (fun _ => .resp 500 ["internal server error"] none)).1
      = (query_site_data siteA (fun _ => .exn)).1 ∧
    (get_site_token (fun _ => .resp 500 (some "ignored") none)).1 = none := by
  decide

/-- C7 amended: if all retry attempts fail, the retrier returns a generic
terminal failure that carries no error information from the attempts -
token acquisition returns `None` and the query step returns
`{"error": "查詢失敗", "site": site.name}` - regardless of which errors
were observed. -/
theorem claim_exhausted_generic_failure (site : SiteConfig)
    (tokenResponses : Nat → TokenResp) (queryResponses : Nat → QueryResp)
    (ht : ∀ j, 1 ≤ j → j ≤ max_retries → tokenAttempt (tokenResponses j) = none)
    (hq : ∀ j, 1 ≤ j → j ≤ max_retries → queryAttempt site (queryResponses j) = none) :
    (get_site_token tokenResponses).1 = none ∧
    (query_site_data site queryResponses).1 = .queryFailed site.name := by
  have h1 := retryRun_fails (fun a => tokenAttempt (tokenResponses a)) ht
  have h2 := retryRun_fails (fun a => queryAttempt site (queryResponses a)) hq
  constructor
  · rw [get_site_token, h1]
  · simp [query_site_data, h2]

/-- Witness for the amended C7 at a concrete input. -/
theorem claim_exhausted_generic_failure_witness :
    (get_site_token (fun _ => .exn)).1 = none ∧
    (query_site_data siteA (fun _ => .exn)).1 = .queryFailed "A" := by
  have h := claim_exhausted_generic_failure siteA (fun _ => .exn) (fun _ => .exn)
    (fun j h1 h2 => rfl) (fun j h1 h2 => rfl)
  simpa [siteA] using h

/-- Counterexample to C8 as stated: a pipeline that raises contributes the
entry `{"error": "Exception", "message": msg}` (line 243), which has no
`"site"` key at all - in particular its site field is not `"unknown"`. -/
theorem claim_exception_entry_counterexample :
    (extract_all_sites_data [(siteA, .raises "boom")]).errors
      = [.exceptionEntry "boom"] ∧
    (extract_all_sites_data [(siteA, .raises "boom")]).error_count = 1 ∧
    ErrorEntry.siteField (.exceptionEntry "boom") ≠ some "unknown" := by
  refine ⟨?_, ?_, by simp [ErrorEntry.siteField]⟩
  · rw [extract_all_sites_data, mergeResults_errors]
    decide
  · rw [extract_all_sites_data, mergeResults_error_count]
    decide

/-- C8 amended: a pipeline that raises an unexpected exception never
aborts the batch: it contributes exactly one error entry
`{"error": "Exception", "message": msg}` (with no site name - the entry
has no `"site"` key), counted in `error_count`, inserted between the error
entries of the surrounding sites, while the other sites' summaries are
exactly those produced without the raising site. -/
theorem claim_exception_isolated (pre post : List (SiteConfig × SiteBehavior))
    (s : SiteConfig) (msg : String) :
    (extract_all_sites_data (pre ++ (s, .raises msg) :: post)).errors
      = (extract_all_sites_data pre).errors
          ++ .exceptionEntry msg :: (extract_all_sites_data post).errors ∧
    (extract_all_sites_data (pre ++ (s, .raises msg) :: post)).error_count
      = (extract_all_sites_data pre).error_count + 1
          + (extract_all_sites_data post).error_count ∧
    (extract_all_sites_data (pre ++ (s, .raises msg) :: post)).sites_data
      = (extract_all_sites_data pre).sites_data
          ++ (extract_all_sites_data post).sites_data ∧
    ErrorEntry.siteField (.exceptionEntry msg) = none := by
  have hg : gatherResults (pre ++ (s, .raises msg) :: post)
      = gatherResults pre ++ .exception msg :: gatherResults post := by
    simp [gatherResults, runPipeline]
  have hsplit : mergeAll (gatherResults (pre ++ (s, .raises msg) :: post))
      = addMerged (mergeAll (gatherResults pre))
          (addMerged (mergeStep initMerged (.exception msg))
            (mergeAll (gatherResults post))) := by
    rw [hg, mergeAll_append, mergeAll_cons]
  refine ⟨?_, ?_, ?_, rfl⟩
  · rw [extract_all_sites_data, mergeResults_errors, hsplit,
      extract_all_sites_data, mergeResults_errors,
      extract_all_sites_data, mergeResults_errors]
    simp [addMerged, mergeStep, initMerged]
  · rw [extract_all_sites_data, mergeResults_error_count, hsplit,
      extract_all_sites_data, mergeResults_error_count,
      extract_all_sites_data, mergeResults_error_count]
    simp [addMerged, mergeStep, initMerged]
    omega
  · rw [extract_all_sites_data, mergeResults_sites_data, hsplit,
      extract_all_sites_data, mergeResults_sites_data,
      extract_all_sites_data, mergeResults_sites_data]
    simp [addMerged, mergeStep, initMerged]

theorem memberLE_trans (a b c : MemberInfo) :
    memberLE a b → memberLE b c → memberLE a c := by
  simp only [memberLE, decide_eq_true_eq]
  rintro (h1 | ⟨e1, h1⟩) (h2 | ⟨e2, h2⟩)
  · exact Or.inl (lt_trans h1 h2)
  · exact Or.inl (lt_of_lt_of_eq h1 e2)
  · exact Or.inl (lt_of_eq_of_lt e1 h2)
  · exact Or.inr ⟨e1.trans e2, le_trans h1 h2⟩

theorem memberLE_total (a b : MemberInfo) : memberLE a b || memberLE b a := by
  simp only [memberLE, Bool.or_eq_true, decide_eq_true_eq]
  rcases lt_trichotomy a.site b.site with h | h | h
  · exact Or.inl (Or.inl h)
  · rcases le_total a.member_id b.member_id with h2 | h2
    · exact Or.inl (Or.inr ⟨h, h2⟩)
    · exact Or.inr (Or.inr ⟨h.symm, h2⟩)
  · exact Or.inr (Or.inl h)

/-- C9: the final `members_info` list is sorted ascending in the
lexicographic order on the pair (site name, member id). -/
theorem claim_members_sorted (items : List GatherItem) :
    ((mergeResults items).members_info).Pairwise
      (fun a b => a.site < b.site ∨ (a.site = b.site ∧ a.member_id ≤ b.member_id)) := by
  have h := List.sorted_mergeSort memberLE_trans memberLE_total
    ((mergeAll items).members_info)
  rw [mergeResults_members_info]
  exact h.imp (by intro a b hb; simpa [memberLE, decide_eq_true_eq] using hb)

/-- C10: `get_site_token` never returns an empty (falsy) token: any token
it returns is a non-empty string, and a 200 authentication response whose
`result.authToken` and top-level `token` fields are both absent or empty
is a retryable failure for that attempt (so the query executor only ever
receives a non-empty token). -/
theorem claim_token_never_falsy :
    (∀ (responses : Nat → TokenResp) (t : String),
      (get_site_token responses).1 = some t → t ≠ "") ∧
    (∀ a b : Option String, (a = none ∨ a = some "") → (b = none ∨ b = some "") →
      tokenAttempt (.resp 200 a b) = none) := by
  constructor
  · intro responses t h
    obtain ⟨j, hj⟩ := retryAux_some _ max_retries 1 h
    exact tokenAttempt_some_ne_empty hj
  · rintro a b (rfl | rfl) (rfl | rfl) <;> simp [tokenAttempt, truthyStr]

/-- Witness for C10 at concrete inputs: a successful run returns the
non-empty token, and a 200 response with an empty `result.authToken` and
no top-level `token` is a retryable failure. -/
theorem claim_token_never_falsy_witness :
    "tok" ≠ "" ∧ tokenAttempt (.resp 200 (some "") none) = none :=
  ⟨claim_token_never_falsy.1 (fun _ => .resp 200 (some "tok") none) "tok" (by decide),
    claim_token_never_falsy.2 (some "") none (Or.inr rfl) (Or.inl rfl)⟩

end Extraction
